import Mathlib

/-!
Verification development for the Indeed scraping engine
(`src/indeed_scraper.py`).  The Python source is shallowly embedded:
pure decision logic is translated function-for-function, while the
browser driver, the DOM and the clock are modelled as explicit inputs
(snapshots of page state, lookup functions for CSS selectors, an
abstract attempt outcome for each navigation try).  All definitions are
computable so the theorems can be exercised on concrete inputs.
-/

namespace IndeedScraper

/-- Python substring test `needle in hay`, over the character lists of the
two strings.  An empty needle is contained in every string, as in Python. -/
def charsContain (needle : List Char) : List Char → Bool
  | [] => needle.isEmpty
  | c :: rest => needle.isPrefixOf (c :: rest) || charsContain needle rest

/-- String form of `charsContain`: `strIn n h` is Python's `n in h`. -/
def strIn (needle hay : String) : Bool :=
  charsContain needle.toList hay.toList

/-- Python's `str.lower()`: lower-case character by character.  Same
function as `String.toLower`, phrased over the character list so that it
evaluates by kernel reduction on concrete inputs. -/
def lowerStr (s : String) : String :=
  ⟨s.data.map Char.toLower⟩

/-- One polled browser state: the page source and the current URL, as read
from the driver at the top of the waiting loop (lines 138-139). -/
structure Snapshot where
  page_source : String
  current_url : String

/-- The `cf_indicators` list of lines 141-147; the argument is the already
lower-cased page source. -/
def cfIndicators (page_source : String) : List Bool :=
  [strIn "cloudflare" page_source,
   strIn "checking your browser" page_source,
   strIn "additional verification required" page_source,
   strIn "ray id" page_source,
   strIn "cf-chl-widget" page_source]

/-- The `success_indicators` list of lines 154-158; arguments are the
lower-cased page source and current URL. -/
def successIndicators (page_source current_url : String) : List Bool :=
  [strIn "jobs" current_url,
   strIn "job" page_source && strIn "company" page_source,
   strIn "search results" page_source]

/-- `any(cf_indicators)` on a snapshot (line 149). -/
def challengeDetected (s : Snapshot) : Bool :=
  (cfIndicators (lowerStr s.page_source)).any (fun b => b)

/-- `any(success_indicators)` on a snapshot (line 160). -/
def successDetected (s : Snapshot) : Bool :=
  (successIndicators (lowerStr s.page_source) (lowerStr s.current_url)).any (fun b => b)

/-- A snapshot on which the gate returns success: no challenge marker and
some success marker (the only path to `return True`, lines 149-162). -/
def readySnapshot (s : Snapshot) : Bool :=
  !challengeDetected s && successDetected s

/-- The polling loop of `wait_for_cloudflare_challenge` (lines 136-169).
`page k` is the snapshot read by the k-th poll.  Every loop path that does
not return sleeps 3 seconds, so the k-th poll happens at time `3 * k` and
runs iff `3 * k < timeout`; the first argument counts the remaining
permitted polls. -/
def gateLoop (page : Nat → Snapshot) : Nat → Nat → Bool
  | 0, _ => false
  | n + 1, k =>
    let s := page k
    if challengeDetected s then gateLoop page n (k + 1)
    else if successDetected s then true
    else gateLoop page n (k + 1)

/-- `wait_for_cloudflare_challenge` (lines 131-172): polls every 3
seconds-equivalent while the elapsed time is below `timeout`, i.e. for
`ceil (timeout / 3)` polls, then returns `False`. -/
def wait_for_cloudflare_challenge (page : Nat → Snapshot) (timeout : Nat) : Bool :=
  gateLoop page ((timeout + 2) / 3) 0

/-- The `select_one`-based fallback loop used by `extract_basic_job_data`
for every field (e.g. lines 484-494): try each selector in order, accept
the first looked-up element whose extracted value passes the field's
check, otherwise keep going. -/
def selectFirst {α : Type} (lookup : String → Option α) (accept : α → Bool) :
    List String → Option α
  | [] => none
  | sel :: rest =>
    match lookup sel with
    | some e => if accept e then some e else selectFirst lookup accept rest
    | none => selectFirst lookup accept rest

/-- The `find_element` loop of `extract_detailed_job_info` (lines 283-290).
The Python variable `job_link` keeps the last found element even when it
is not displayed (the loop only `continue`s without resetting it), which
the accumulator argument mirrors. -/
def findJobLink {α : Type} (find : String → Option α) (displayed : α → Bool) :
    List String → Option α → Option α
  | [], job_link => job_link
  | sel :: rest, job_link =>
    match find sel with
    | some e => if displayed e then some e else findJobLink find displayed rest (some e)
    | none => findJobLink find displayed rest job_link

/-- A DOM element as the extractor sees it through BeautifulSoup:
`get('title')`, `get('href')`, `get('data-jk')` and `get_text(strip=True)`. -/
structure TagElem where
  attr_title : Option String
  href : Option String
  data_jk : Option String
  text : String
deriving DecidableEq

/-- One listing-entry markup fragment: `select_one` over its `outerHTML`
soup (line 476). -/
structure Fragment where
  selectOne : String → Option TagElem

/-- The record dictionary built per job.  Every key the Python code can put
into `job_data` (including the detail-pass keys merged by `update`) is a
field; `none` models an absent key. -/
structure JobData where
  title : Option String
  url : Option String
  job_id : Option String
  company : Option String
  location : Option String
  salary : Option String
  scraped_at : String
  source : String
  scraper_method : String
  position_on_page : Option Nat
  page_number : Option Nat
  country : Option String
  full_job_description : Option String
  profile_insights : Option String
  company_size : Option String
  benefits : Option String
  job_requirements : Option String
deriving DecidableEq

/-- The dictionary with no optional keys set yet and empty stamps. -/
def emptyJobData : JobData :=
  ⟨none, none, none, none, none, none, "", "", "", none, none, none,
   none, none, none, none, none⟩

/-- `title_selectors` of `extract_basic_job_data` (lines 478-482). -/
def title_selectors : List String :=
  ["h2 a[data-jk]", "h2 a", "a[data-jk]", ".jobTitle a",
   "a[href*=\"/viewjob\"]", "h3 a", "[data-testid*=\"job-title\"] a",
   "span[title] a", "div[class*=\"title\"] a"]

/-- `company_selectors` (lines 496-500). -/
def company_selectors : List String :=
  [".companyName a", ".companyName", "span.companyName",
   "[data-testid*=\"company\"] a", "[data-testid*=\"company\"]",
   ".company a", ".company", "div[class*=\"company\"]"]

/-- `location_selectors` (lines 510-513). -/
def location_selectors : List String :=
  [".companyLocation", "[data-testid*=\"location\"]",
   ".locationsContainer", ".location", "div[class*=\"location\"]"]

/-- `salary_selectors` (lines 523-526). -/
def salary_selectors : List String :=
  [".salaryText", "[data-testid*=\"salary\"]",
   ".salary-snippet", ".salary", "div[class*=\"salary\"]"]

/-- `title_elem.get('title', '') or title_elem.get_text(strip=True)`
(line 487): the `title` attribute when non-empty, else the text. -/
def titleTextOf (e : TagElem) : String :=
  let t := e.attr_title.getD ""
  if t = "" then e.text else t

/-- Acceptance check of the title loop (line 488):
`title_text and len(title_text) > 2`. -/
def acceptTitle (e : TagElem) : Bool :=
  let t := titleTextOf e
  decide (t ≠ "") && decide (2 < t.length)

/-- Acceptance check of the company and location loops (lines 506, 519):
non-empty text of length above 1. -/
def acceptText1 (e : TagElem) : Bool :=
  decide (e.text ≠ "") && decide (1 < e.text.length)

/-- Acceptance check of the salary loop (line 532): non-empty text holding
at least one digit. -/
def acceptSalary (e : TagElem) : Bool :=
  decide (e.text ≠ "") && e.text.any Char.isDigit

/-- `extract_basic_job_data` (lines 472-544).  `base_url` and
`country_name` are the constructor-set attributes, `now` is the
`datetime.now().isoformat()` stamp of line 536. -/
def extract_basic_job_data (base_url country_name : String) (frag : Fragment)
    (now : String) : JobData :=
  let titleFields :=
    match selectFirst frag.selectOne acceptTitle title_selectors with
    | some e =>
      let href := e.href.getD ""
      let u := if href = "" then none
               else some (if href.startsWith "/" then base_url ++ href else href)
      (some (titleTextOf e), u, some (e.data_jk.getD ""))
    | none => (none, none, none)
  let companyField :=
    match selectFirst frag.selectOne acceptText1 company_selectors with
    | some e => some e.text
    | none => none
  let locationField :=
    match selectFirst frag.selectOne acceptText1 location_selectors with
    | some e => some e.text
    | none => none
  let salaryField :=
    match selectFirst frag.selectOne acceptSalary salary_selectors with
    | some e => some e.text
    | none => none
  { emptyJobData with
      title := titleFields.1
      url := titleFields.2.1
      job_id := titleFields.2.2
      company := companyField
      location := locationField
      salary := salaryField
      scraped_at := now
      source := "Indeed " ++ country_name
      scraper_method := "Indeed Scraper" }

/-- The `detailed_info` dictionary of the detail pass (lines 318-393). -/
structure Enrichment where
  full_job_description : Option String
  profile_insights : Option String
  company_size : Option String
  benefits : Option String
  job_requirements : Option String
deriving DecidableEq

/-- Detail pass result when nothing was extracted (`return {}`). -/
def emptyEnrichment : Enrichment :=
  ⟨none, none, none, none, none⟩

/-- Outcome of one attempt of the detail pass, abstracting the
driver-dependent body of `extract_detailed_job_info`:
no clickable link found (lines 292-294), an exception in the click block
(lines 309-316), an exception anywhere else in the outer `try`
(lines 398-405), or a successfully parsed enrichment (line 396). -/
inductive DetailAttempt where
  | noLink
  | clickError
  | outerError
  | parsed (d : Enrichment)
deriving DecidableEq

/-- `max_retries = 3` (line 269). -/
def max_retries : Nat := 3

/-- The retry skeleton of `extract_detailed_job_info` (lines 267-405):
`attempt r` is what the r-th invocation's body does.  A missing link
returns `{}` at once; a failure retries by recursive self-call with
`retry_count + 1` while `retry_count < max_retries`, else returns `{}`;
a successful parse returns its enrichment. -/
def extract_detailed_job_info (attempt : Nat → DetailAttempt)
    (retry_count : Nat) : Enrichment :=
  match attempt retry_count with
  | .noLink => emptyEnrichment
  | .clickError =>
    if retry_count < max_retries then
      extract_detailed_job_info attempt (retry_count + 1)
    else emptyEnrichment
  | .outerError =>
    if retry_count < max_retries then
      extract_detailed_job_info attempt (retry_count + 1)
    else emptyEnrichment
  | .parsed d => d
termination_by (max_retries + 1) - retry_count
decreasing_by all_goals simp only [max_retries] at *; omega

/-- Merging one optional key of `job_data.update(detailed_info)`:
a key present in the update wins, an absent one leaves the record as is. -/
def updKey (new old : Option String) : Option String :=
  match new with
  | some v => some v
  | none => old

/-- `job_data.update(detailed_info)` (line 451): only the five detail keys
can occur in `detailed_info`, so only those fields change. -/
def applyEnrichment (j : JobData) (d : Enrichment) : JobData :=
  { j with
      full_job_description := updKey d.full_job_description j.full_job_description
      profile_insights := updKey d.profile_insights j.profile_insights
      company_size := updKey d.company_size j.company_size
      benefits := updKey d.benefits j.benefits
      job_requirements := updKey d.job_requirements j.job_requirements }

/-- Truthiness of `job_data.get('title')` (line 445). -/
def titleTruthy (j : JobData) : Bool :=
  decide (j.title.getD "" ≠ "")

/-- The entry loop of `extract_jobs_from_page` (lines 439-463) over the
found `job_elements`.  `i` is the running `enumerate` index, `now i` the
timestamp read while processing entry i, and `detail i` the attempt
outcomes of that entry's detail pass.  An entry is appended exactly when
`job_data` has a truthy `title`; it is then tagged with
`position_on_page`, `page_number` and `country` and merged with the
detail-pass dictionary. -/
def pageEntriesGo (base_url country_name : String) (now : Nat → String)
    (detail : Nat → Nat → DetailAttempt) (page_num : Nat) :
    Nat → List Fragment → List JobData
  | _, [] => []
  | i, frag :: rest =>
    let job_data := extract_basic_job_data base_url country_name frag (now i)
    if titleTruthy job_data then
      let tagged :=
        { job_data with
            position_on_page := some (i + 1)
            page_number := some page_num
            country := some country_name }
      let detailed_info := extract_detailed_job_info (detail i) 0
      applyEnrichment tagged detailed_info ::
        pageEntriesGo base_url country_name now detail page_num (i + 1) rest
    else pageEntriesGo base_url country_name now detail page_num (i + 1) rest

/-- `extract_jobs_from_page` (lines 407-470) applied to the discovered
entry fragments of one results page. -/
def extract_jobs_from_page (base_url country_name : String) (now : Nat → String)
    (detail : Nat → Nat → DetailAttempt) (elements : List Fragment)
    (page_num : Nat) : List JobData :=
  pageEntriesGo base_url country_name now detail page_num 0 elements

/-- Restates the spec sentence for the page output: the page output
contains exactly the (enumerated) entries whose basic extraction produced
a non-empty title, each carried to its tagged and enriched record. -/
def pageOutputSpec (base_url country_name : String) (now : Nat → String)
    (detail : Nat → Nat → DetailAttempt) (elements : List Fragment)
    (page_num : Nat) : List JobData :=
  ((List.enumFrom 0 elements).filter
      (fun pr => titleTruthy (extract_basic_job_data base_url country_name pr.2 (now pr.1)))).map
    (fun pr =>
      applyEnrichment
        { extract_basic_job_data base_url country_name pr.2 (now pr.1) with
            position_on_page := some (pr.1 + 1)
            page_number := some page_num
            country := some country_name }
        (extract_detailed_job_info (detail pr.1) 0))

/-- A pagination control element: `is_displayed()` and `is_enabled()`. -/
structure PageElem where
  displayed : Bool
  enabled : Bool
deriving DecidableEq

/-- The driver's view of the current page for the pagination check:
`find1` is `driver.find_element` (the first match of a CSS selector, or
nothing when `NoSuchElementException` is raised) and `findAll` is
`driver.find_elements` (all matches). -/
structure BrowserPage where
  find1 : String → Option PageElem
  findAll : String → List PageElem

/-- `next_selectors` of `check_for_more_pages` (lines 548-554). -/
def next_selectors : List String :=
  ["a[aria-label=\"Next Page\"]", "a[aria-label=\"Next\"]",
   "a[class*=\"next\"]", "a[href*=\"start=\"]", "button[aria-label=\"Next\"]"]

/-- The fallback probe's selector for any `start=`-parameterized link
(line 564). -/
def startHrefSelector : String :=
  "a[href*=\"start=\"]"

/-- The selector loop of `check_for_more_pages`: a selector whose first
match is displayed and enabled returns it; otherwise, after the list is
exhausted, any `start=` link at all yields `(True, None)`, else
`(False, None)` (lines 556-568). -/
def nextLoop (pg : BrowserPage) : List String → Bool × Option PageElem
  | [] =>
    if (pg.findAll startHrefSelector).isEmpty then (false, none) else (true, none)
  | sel :: rest =>
    match pg.find1 sel with
    | some e => if e.displayed && e.enabled then (true, some e) else nextLoop pg rest
    | none => nextLoop pg rest

/-- `check_for_more_pages` (lines 546-572). -/
def check_for_more_pages (pg : BrowserPage) : Bool × Option PageElem :=
  nextLoop pg next_selectors

/-- What `extract_jobs_from_page` does for one page of the orchestrator
run: returns a job list, raises a generic `Exception` that reaches the
orchestrator's `except Exception` handler, or raises `KeyboardInterrupt`
(which that handler does not catch). -/
inductive PageFetch where
  | ok (jobs : List JobData)
  | exc
  | interrupt
deriving DecidableEq

/-- Why the `while True` loop of `scrape_all_pages` ended (ghost
observation; the Python function prints the final `page_num` and the
count but returns only the list). -/
inductive StopReason where
  | pageCap
  | consecutiveEmpty
  | noMorePages
  | nextPageFailed
  | safetyLimit
  | criticalError
deriving DecidableEq

/-- The environment of one orchestrator run: the snapshots the challenge
gate polls after navigation, and per page number the extraction outcome,
the `check_for_more_pages` verdict and the `go_to_next_page` verdict. -/
structure ScrapeEnv where
  gatePage : Nat → Snapshot
  fetch : Nat → PageFetch
  hasMore : Nat → Bool
  nextOk : Nat → Bool

/-- `if max_pages and page_num > max_pages` (line 620): Python truthiness
makes `None` and `0` both skip the cap. -/
def capReached (max_pages : Option Nat) (page_num : Nat) : Bool :=
  match max_pages with
  | some m => decide (0 < m) && decide (m < page_num)
  | none => false

/-- The `while True` loop of `scrape_all_pages` (lines 613-649), carried
state `page_num`, `consecutive_failures` and `all_jobs`.  A generic
exception is caught by the orchestrator's `except Exception` and returns
the accumulated list (lines 658-660); a `KeyboardInterrupt` propagates
(`Except.error`).  The `page_num > 100` safety check (line 647) bounds
the loop to 101 iterations from the entry point, so a fuel of 101 is
never exhausted; the fuel base case mirrors the safety stop. -/
def scrapeLoop (env : ScrapeEnv) (max_pages : Option Nat) :
    Nat → Nat → Nat → List JobData →
    Except Unit (List JobData × Nat × StopReason)
  | 0, page_num, _, acc => .ok (acc, page_num, .safetyLimit)
  | fuel + 1, page_num, consecutive_failures, acc =>
    let p := page_num + 1
    if capReached max_pages p then .ok (acc, page_num, .pageCap)
    else
      match env.fetch p with
      | .interrupt => .error ()
      | .exc => .ok (acc, p, .criticalError)
      | .ok page_jobs =>
        let acc2 := if page_jobs.isEmpty then acc else acc ++ page_jobs
        let cf2 := if page_jobs.isEmpty then consecutive_failures + 1 else 0
        if page_jobs.isEmpty && decide (3 ≤ cf2) then .ok (acc2, p, .consecutiveEmpty)
        else if !env.hasMore p then .ok (acc2, p, .noMorePages)
        else if !env.nextOk p then .ok (acc2, p, .nextPageFailed)
        else if decide (100 < p) then .ok (acc2, p, .safetyLimit)
        else scrapeLoop env max_pages fuel p cf2 acc2

/-- `navigate_to_jobs` (lines 198-224) as seen by the orchestrator: after
the navigation settles (and any manual sign-in wait returns), its result
is exactly the challenge gate's verdict with the default 120-second
timeout (line 214). -/
def navigate_to_jobs (env : ScrapeEnv) : Bool :=
  wait_for_cloudflare_challenge env.gatePage 120

/-- `scrape_all_pages` (lines 600-664): a failed navigation returns the
empty list (line 611), otherwise the loop's accumulated list; a
`KeyboardInterrupt` is not caught and escapes as `Except.error`. -/
def scrape_all_pages (env : ScrapeEnv) (max_pages : Option Nat) :
    Except Unit (List JobData) :=
  if !navigate_to_jobs env then .ok []
  else (scrapeLoop env max_pages 101 0 0 []).map (fun r => r.1)

/-- `COUNTRIES` (lines 30-39): code, domain, display name. -/
def COUNTRIES : List (String × String × String) :=
  [("AU", "au.indeed.com", "Australia"),
   ("IN", "in.indeed.com", "India"),
   ("US", "indeed.com", "United States"),
   ("UK", "uk.indeed.com", "United Kingdom"),
   ("CA", "ca.indeed.com", "Canada"),
   ("SG", "sg.indeed.com", "Singapore"),
   ("DE", "de.indeed.com", "Germany"),
   ("FR", "fr.indeed.com", "France")]

/-- `country in self.COUNTRIES` resolved to the configured
(domain, name) pair. -/
def lookupCountry (country : String) : Option (String × String) :=
  (COUNTRIES.find? (fun t => t.1 == country)).map (fun t => t.2)

/-- The session-independent state `__init__` assigns (lines 54-59) before
`setup_driver()` runs. -/
structure ScraperConfig where
  country : String
  base_url : String
  country_name : String
  save_session : Bool
  session_file : String
deriving DecidableEq

/-- `IndeedScraper.__init__` (lines 50-60) up to the driver setup: an
unsupported country raises `ValueError` before any attribute or driver
state is created; a supported one fixes `base_url`, `country_name` and
the session file name. -/
def scraperInit (country : String) (save_session : Bool) :
    Except String ScraperConfig :=
  match lookupCountry country with
  | none => .error ("Country " ++ country ++ " not supported")
  | some dn =>
    .ok { country := country
          base_url := "https://" ++ dn.1
          country_name := dn.2
          save_session := save_session
          session_file := "indeed_session_" ++ country.toLower ++ ".pkl" }

/-! ### Helper lemmas -/

lemma pageEntriesGo_eq (b c : String) (now : Nat → String)
    (detail : Nat → Nat → DetailAttempt) (p : Nat) :
    ∀ (l : List Fragment) (i : Nat),
      pageEntriesGo b c now detail p i l =
        ((List.enumFrom i l).filter
            (fun pr => titleTruthy (extract_basic_job_data b c pr.2 (now pr.1)))).map
          (fun pr =>
            applyEnrichment
              { extract_basic_job_data b c pr.2 (now pr.1) with
                  position_on_page := some (pr.1 + 1)
                  page_number := some p
                  country := some c }
              (extract_detailed_job_info (detail pr.1) 0)) := by
  intro l
  induction l with
  | nil => intro i; simp [pageEntriesGo, List.enumFrom]
  | cons f rest ih =>
    intro i
    by_cases h : titleTruthy (extract_basic_job_data b c f (now i)) = true
    · simp [pageEntriesGo, List.enumFrom, List.filter_cons, h, ih (i + 1)]
    · simp [pageEntriesGo, List.enumFrom, List.filter_cons, h, ih (i + 1)]

lemma selectFirst_skips {α : Type} (lookup : String → Option α) (accept : α → Bool) :
    ∀ (pre : List String) (s : String) (rest : List String) (e : α),
      (∀ t ∈ pre, ∀ x, lookup t = some x → accept x = false) →
      lookup s = some e → accept e = true →
      selectFirst lookup accept (pre ++ s :: rest) = some e := by
  intro pre
  induction pre with
  | nil =>
    intro s rest e _ hs ha
    simp [selectFirst, hs, ha]
  | cons t pre ih =>
    intro s rest e hpre hs ha
    have htail := ih s rest e (fun u hu x hx => hpre u (List.mem_cons_of_mem _ hu) x hx) hs ha
    cases hl : lookup t with
    | none => simpa [selectFirst, hl] using htail
    | some x =>
      have hx : accept x = false := hpre t (List.mem_cons_self t pre) x hl
      simpa [selectFirst, hl, hx] using htail

lemma findJobLink_skips {α : Type} (find : String → Option α) (displayed : α → Bool) :
    ∀ (pre : List String) (s : String) (rest : List String) (e : α)
      (job_link : Option α),
      (∀ t ∈ pre, ∀ x, find t = some x → displayed x = false) →
      find s = some e → displayed e = true →
      findJobLink find displayed (pre ++ s :: rest) job_link = some e := by
  intro pre
  induction pre with
  | nil =>
    intro s rest e job_link _ hs hd
    simp [findJobLink, hs, hd]
  | cons t pre ih =>
    intro s rest e job_link hpre hs hd
    cases hl : find t with
    | none =>
      simpa [findJobLink, hl] using
        ih s rest e job_link (fun u hu x hx => hpre u (List.mem_cons_of_mem _ hu) x hx) hs hd
    | some x =>
      have hx : displayed x = false := hpre t (List.mem_cons_self t pre) x hl
      simpa [findJobLink, hl, hx] using
        ih s rest e (some x) (fun u hu y hy => hpre u (List.mem_cons_of_mem _ hu) y hy) hs hd

lemma gateLoop_true_iff (page : Nat → Snapshot) :
    ∀ (n k : Nat),
      gateLoop page n k = true ↔ ∃ j, j < n ∧ readySnapshot (page (k + j)) = true := by
  intro n
  induction n with
  | zero => intro k; simp [gateLoop]
  | succ n ih =>
    intro k
    cases hch : challengeDetected (page k) with
    | true =>
      have hr : readySnapshot (page k) = false := by
        simp [readySnapshot, hch]
      rw [show gateLoop page (n + 1) k = gateLoop page n (k + 1) by
        simp [gateLoop, hch]]
      rw [ih (k + 1)]
      constructor
      · rintro ⟨j, hj, hready⟩
        exact ⟨j + 1, by omega, by simpa [Nat.add_comm, Nat.add_assoc, Nat.add_left_comm] using hready⟩
      · rintro ⟨j, hj, hready⟩
        cases j with
        | zero => rw [Nat.add_zero] at hready; rw [hr] at hready; cases hready
        | succ j =>
          exact ⟨j, by omega, by simpa [Nat.add_comm, Nat.add_assoc, Nat.add_left_comm] using hready⟩
    | false =>
      cases hsu : successDetected (page k) with
      | true =>
        have : gateLoop page (n + 1) k = true := by simp [gateLoop, hch, hsu]
        rw [this]
        simp only [true_iff]
        exact ⟨0, by omega, by simp [readySnapshot, hch, hsu]⟩
      | false =>
        have hr : readySnapshot (page k) = false := by
          simp [readySnapshot, hch, hsu]
        rw [show gateLoop page (n + 1) k = gateLoop page n (k + 1) by
          simp [gateLoop, hch, hsu]]
        rw [ih (k + 1)]
        constructor
        · rintro ⟨j, hj, hready⟩
          exact ⟨j + 1, by omega, by simpa [Nat.add_comm, Nat.add_assoc, Nat.add_left_comm] using hready⟩
        · rintro ⟨j, hj, hready⟩
          cases j with
          | zero => rw [Nat.add_zero] at hready; rw [hr] at hready; cases hready
          | succ j =>
            exact ⟨j, by omega, by simpa [Nat.add_comm, Nat.add_assoc, Nat.add_left_comm] using hready⟩

lemma nextLoop_false_iff (pg : BrowserPage) :
    ∀ (l : List String),
      (nextLoop pg l).1 = false ↔
        ((∀ s ∈ l, ∀ e, pg.find1 s = some e → (e.displayed && e.enabled) = false) ∧
          pg.findAll startHrefSelector = []) := by
  intro l
  induction l with
  | nil =>
    simp only [nextLoop]
    constructor
    · intro h
      refine ⟨by simp, ?_⟩
      by_cases he : (pg.findAll startHrefSelector).isEmpty = true
      · exact List.isEmpty_iff.mp he
      · rw [if_neg he] at h; cases h
    · rintro ⟨-, h2⟩
      rw [if_pos (by simp [h2])]
  | cons s rest ih =>
    cases hl : pg.find1 s with
    | none =>
      simp only [nextLoop, hl]
      rw [ih]
      constructor
      · rintro ⟨h1, h2⟩
        refine ⟨?_, h2⟩
        intro t ht x hx
        rcases List.mem_cons.mp ht with rfl | ht2
        · rw [hl] at hx; cases hx
        · exact h1 t ht2 x hx
      · rintro ⟨h1, h2⟩
        exact ⟨fun t ht x hx => h1 t (List.mem_cons_of_mem _ ht) x hx, h2⟩
    | some e =>
      cases hde : e.displayed && e.enabled with
      | true =>
        simp only [nextLoop, hl, hde, if_true]
        constructor
        · intro h; cases h
        · rintro ⟨h1, -⟩
          have := h1 s (List.mem_cons_self s rest) e hl
          rw [hde] at this; cases this
      | false =>
        simp only [nextLoop, hl, hde, Bool.false_eq_true, if_false]
        rw [ih]
        constructor
        · rintro ⟨h1, h2⟩
          refine ⟨?_, h2⟩
          intro t ht x hx
          rcases List.mem_cons.mp ht with rfl | ht2
          · rw [hl] at hx
            cases hx
            exact hde
          · exact h1 t ht2 x hx
        · rintro ⟨h1, h2⟩
          exact ⟨fun t ht x hx => h1 t (List.mem_cons_of_mem _ ht) x hx, h2⟩

/-! ### Claims C1, C3, C6, C8, C9 -/

/-- C1: for every page extraction run, a record whose basic pass yields no
title is never included; the page output is exactly the enumerated entries
whose basic extraction produced a non-empty title, each as its tagged and
enriched record. -/
theorem C1_page_output_exact (base_url country_name : String) (now : Nat → String)
    (detail : Nat → Nat → DetailAttempt) (elements : List Fragment) (page_num : Nat) :
    extract_jobs_from_page base_url country_name now detail elements page_num =
      pageOutputSpec base_url country_name now detail elements page_num :=
  pageEntriesGo_eq base_url country_name now detail page_num elements 0

/-- C3: the challenge gate returns success exactly when some poll made
before the timeout elapses (the k-th poll happens at time `3 * k`) sees a
success marker with no challenge marker; while every in-time poll shows a
challenge marker, or neither marker set, the gate keeps waiting and
returns failure once the timeout elapses. -/
theorem C3_gate_ready_iff (page : Nat → Snapshot) (timeout : Nat) :
    wait_for_cloudflare_challenge page timeout = true ↔
      ∃ k, 3 * k < timeout ∧ readySnapshot (page k) = true := by
  unfold wait_for_cloudflare_challenge
  rw [gateLoop_true_iff]
  constructor
  · rintro ⟨j, hj, hready⟩
    exact ⟨j, by omega, by simpa using hready⟩
  · rintro ⟨k, hk, hready⟩
    exact ⟨k, by omega, by simpa using hready⟩

/-- C6: selector-chain resolution is strictly first-match-wins by chain
order, for both the basic-pass `select_one` loop and the detail-pass
`find_element` loop: when no earlier chain entry has an acceptable match
and position `s` has one, the resolver returns that element no matter
what later positions hold. -/
theorem C6_resolver_first_match_wins {α : Type} (lookup : String → Option α)
    (accept displayed : α → Bool) (pre : List String) (s : String)
    (rest : List String) (e : α)
    (hpre : ∀ t ∈ pre, ∀ x, lookup t = some x → accept x = false ∧ displayed x = false)
    (hs : lookup s = some e) (hacc : accept e = true) (hdisp : displayed e = true) :
    selectFirst lookup accept (pre ++ s :: rest) = some e ∧
      ∀ job_link, findJobLink lookup displayed (pre ++ s :: rest) job_link = some e :=
  ⟨selectFirst_skips lookup accept pre s rest e
      (fun t ht x hx => (hpre t ht x hx).1) hs hacc,
   fun job_link =>
     findJobLink_skips lookup displayed pre s rest e job_link
       (fun t ht x hx => (hpre t ht x hx).2) hs hdisp⟩

/-- Chain lookup used by the C6 witness: matches at positions 2 and 4
only. -/
def c6Lookup : String → Option Nat :=
  fun t => if t = "sel2" then some 2 else if t = "sel4" then some 4 else none

/-- Acceptance used by the C6 witness. -/
def c6Accept : Nat → Bool :=
  fun n => decide (0 < n)

/-- Witness for C6: a four-entry chain with acceptable matches at
positions 2 and 4 and none earlier resolves to the element at position 2
in both resolver loops. -/
theorem C6_resolver_first_match_wins_witness :
    selectFirst c6Lookup c6Accept ["sel1", "sel2", "sel3", "sel4"] = some 2 ∧
      findJobLink c6Lookup c6Accept ["sel1", "sel2", "sel3", "sel4"] none = some 2 := by
  have h := C6_resolver_first_match_wins c6Lookup c6Accept c6Accept
    ["sel1"] "sel2" ["sel3", "sel4"] 2
    (fun t ht x hx => by
      rcases List.mem_singleton.mp ht with rfl
      simp [c6Lookup] at hx)
    (by decide)
    (by decide)
    (by decide)
  exact ⟨h.1, h.2 none⟩

/-- C8: the pagination existence check returns false exactly when no
"next" locator's element is displayed and enabled and no
`start=`-parameterized link exists on the page; it returns true in every
other case. -/
theorem C8_has_next_iff (pg : BrowserPage) :
    (check_for_more_pages pg).1 = false ↔
      ((∀ s ∈ next_selectors, ∀ e, pg.find1 s = some e →
          (e.displayed && e.enabled) = false) ∧
        pg.findAll startHrefSelector = []) :=
  nextLoop_false_iff pg next_selectors

/-- C9: basic extraction is idempotent modulo the timestamp — on the same
unchanged fragment, every produced field except `scraped_at` is
identical across runs. -/
theorem C9_basic_idempotent (base_url country_name : String) (frag : Fragment)
    (t1 t2 : String) :
    (extract_basic_job_data base_url country_name frag t1).title =
        (extract_basic_job_data base_url country_name frag t2).title ∧
      (extract_basic_job_data base_url country_name frag t1).url =
        (extract_basic_job_data base_url country_name frag t2).url ∧
      (extract_basic_job_data base_url country_name frag t1).job_id =
        (extract_basic_job_data base_url country_name frag t2).job_id ∧
      (extract_basic_job_data base_url country_name frag t1).company =
        (extract_basic_job_data base_url country_name frag t2).company ∧
      (extract_basic_job_data base_url country_name frag t1).location =
        (extract_basic_job_data base_url country_name frag t2).location ∧
      (extract_basic_job_data base_url country_name frag t1).salary =
        (extract_basic_job_data base_url country_name frag t2).salary ∧
      (extract_basic_job_data base_url country_name frag t1).source =
        (extract_basic_job_data base_url country_name frag t2).source ∧
      (extract_basic_job_data base_url country_name frag t1).scraper_method =
        (extract_basic_job_data base_url country_name frag t2).scraper_method :=
  ⟨rfl, rfl, rfl, rfl, rfl, rfl, rfl, rfl⟩

/-! ### Claim C2 (retry policy of the detail pass) -/

lemma detail_eq (attempt : Nat → DetailAttempt) (rc : Nat) :
    extract_detailed_job_info attempt rc =
      match attempt rc with
      | .noLink => emptyEnrichment
      | .clickError =>
        if rc < max_retries then extract_detailed_job_info attempt (rc + 1)
        else emptyEnrichment
      | .outerError =>
        if rc < max_retries then extract_detailed_job_info attempt (rc + 1)
        else emptyEnrichment
      | .parsed d => d := by
  conv_lhs => unfold extract_detailed_job_info

lemma detail_click_retry (attempt : Nat → DetailAttempt) (rc : Nat)
    (h : attempt rc = .clickError) (h2 : rc < max_retries) :
    extract_detailed_job_info attempt rc =
      extract_detailed_job_info attempt (rc + 1) := by
  rw [detail_eq, h]
  exact if_pos h2

lemma detail_click_stop (attempt : Nat → DetailAttempt) (rc : Nat)
    (h : attempt rc = .clickError) (h2 : ¬ rc < max_retries) :
    extract_detailed_job_info attempt rc = emptyEnrichment := by
  rw [detail_eq, h]
  exact if_neg h2

lemma detail_parsed (attempt : Nat → DetailAttempt) (rc : Nat) (d : Enrichment)
    (h : attempt rc = .parsed d) :
    extract_detailed_job_info attempt rc = d := by
  rw [detail_eq, h]

/-- An attempt environment that fails with a click error on the first `k`
attempts and parses `d` from then on. -/
def failsThenSucceeds (k : Nat) (d : Enrichment) : Nat → DetailAttempt :=
  fun r => if r < k then .clickError else .parsed d

lemma applyEnrichment_title (j : JobData) (d : Enrichment) :
    (applyEnrichment j d).title = j.title := rfl

lemma pageTitles_detail_independent (b c : String) (now : Nat → String) (p : Nat)
    (d1 d2 : Nat → Nat → DetailAttempt) :
    ∀ (l : List Fragment) (i : Nat),
      (pageEntriesGo b c now d1 p i l).map (fun j => j.title) =
        (pageEntriesGo b c now d2 p i l).map (fun j => j.title) := by
  intro l
  induction l with
  | nil => intro i; rfl
  | cons f rest ih =>
    intro i
    by_cases h : titleTruthy (extract_basic_job_data b c f (now i)) = true
    · simp only [pageEntriesGo, h, if_true, List.map_cons, applyEnrichment_title]
      rw [ih (i + 1)]
    · simp only [pageEntriesGo, h, if_false]
      exact ih (i + 1)

/-- A sample non-empty enrichment parsed by a successful detail attempt. -/
def sampleEnrichment : Enrichment :=
  ⟨some "We are looking for a data engineer to build our pipelines.",
   none, none, none, none⟩

/-- Counterexample to C2: an action failing on exactly 3 attempts and then
succeeding makes the detail pass return the successful enrichment, not the
empty dictionary — the code performs one initial attempt plus 3 retries
(4 attempts), so 3 failures do not exhaust it. -/
theorem C2_counterexample :
    extract_detailed_job_info (failsThenSucceeds 3 sampleEnrichment) 0 =
        sampleEnrichment ∧
      sampleEnrichment ≠ emptyEnrichment := by
  constructor
  · have h0 := detail_click_retry (failsThenSucceeds 3 sampleEnrichment) 0
      (by decide) (by decide)
    have h1 := detail_click_retry (failsThenSucceeds 3 sampleEnrichment) 1
      (by decide) (by decide)
    have h2 := detail_click_retry (failsThenSucceeds 3 sampleEnrichment) 2
      (by decide) (by decide)
    have h3 := detail_parsed (failsThenSucceeds 3 sampleEnrichment) 3 sampleEnrichment
      (by decide)
    rw [h0, h1, h2, h3]
  · decide

/-- C2 (amended): the detail pass makes one initial attempt plus up to
`max_retries = 3` retries.  Failing `k ≤ 3` times and then succeeding
returns the successful enrichment; failing on all 4 attempts returns the
empty enrichment without raising; and the page output keeps the basic
record of every titled entry regardless of its detail-pass outcomes
(the output's title column does not depend on the detail environment). -/
theorem C2_retry_amended (d : Enrichment) (k : Nat) :
    (k ≤ 3 → extract_detailed_job_info (failsThenSucceeds k d) 0 = d) ∧
      (4 ≤ k →
        extract_detailed_job_info (failsThenSucceeds k d) 0 = emptyEnrichment) ∧
      (∀ (b c : String) (now : Nat → String) (e1 e2 : Nat → Nat → DetailAttempt)
          (elements : List Fragment) (p : Nat),
        (extract_jobs_from_page b c now e1 elements p).map (fun j => j.title) =
          (extract_jobs_from_page b c now e2 elements p).map (fun j => j.title)) := by
  refine ⟨?_, ?_, ?_⟩
  · intro hk
    have hstep : ∀ r, r < k →
        extract_detailed_job_info (failsThenSucceeds k d) r =
          extract_detailed_job_info (failsThenSucceeds k d) (r + 1) := by
      intro r hr
      exact detail_click_retry _ r (by simp [failsThenSucceeds, hr])
        (by simp only [max_retries]; omega)
    have hdone : extract_detailed_job_info (failsThenSucceeds k d) k = d :=
      detail_parsed _ k d (by simp [failsThenSucceeds])
    interval_cases k
    · exact hdone
    · rw [hstep 0 (by omega)]; exact hdone
    · rw [hstep 0 (by omega), hstep 1 (by omega)]; exact hdone
    · rw [hstep 0 (by omega), hstep 1 (by omega), hstep 2 (by omega)]; exact hdone
  · intro hk
    have hfail : ∀ r, r ≤ 3 → failsThenSucceeds k d r = .clickError := by
      intro r hr
      simp only [failsThenSucceeds, if_pos (by omega : r < k)]
    rw [detail_click_retry _ 0 (hfail 0 (by omega)) (by decide)]
    rw [detail_click_retry _ 1 (hfail 1 (by omega)) (by decide)]
    rw [detail_click_retry _ 2 (hfail 2 (by omega)) (by decide)]
    exact detail_click_stop _ 3 (hfail 3 (by omega)) (by decide)
  · intro b c now e1 e2 elements p
    exact pageTitles_detail_independent b c now p e1 e2 elements 0

/-- Witness for C2 (amended): failing twice then succeeding yields the
successful enrichment; failing seven times yields the empty enrichment. -/
theorem C2_retry_amended_witness :
    extract_detailed_job_info (failsThenSucceeds 2 sampleEnrichment) 0 =
        sampleEnrichment ∧
      extract_detailed_job_info (failsThenSucceeds 7 sampleEnrichment) 0 =
        emptyEnrichment :=
  ⟨(C2_retry_amended sampleEnrichment 2).1 (by omega),
   (C2_retry_amended sampleEnrichment 7).2.1 (by omega)⟩

/-! ### Orchestrator observations and invariant -/

/-- The jobs a page-fetch outcome contributes to `all_jobs`. -/
def yieldOf : PageFetch → List JobData
  | .ok jobs => jobs
  | _ => []

/-- Concatenated yields of pages `1 .. n` of an environment. -/
def yieldsUpTo (env : ScrapeEnv) : Nat → List JobData
  | 0 => []
  | n + 1 => yieldsUpTo env n ++ yieldOf (env.fetch (n + 1))

/-- The run ended without a propagating interrupt. -/
def runIsOk (r : Except Unit (List JobData × Nat × StopReason)) : Bool :=
  match r with
  | .ok _ => true
  | .error _ => false

/-- Records returned by a loop result. -/
def runRecords (r : Except Unit (List JobData × Nat × StopReason)) : List JobData :=
  match r with
  | .ok x => x.1
  | .error _ => []

/-- Final `page_num` of a loop result. -/
def runPages (r : Except Unit (List JobData × Nat × StopReason)) : Nat :=
  match r with
  | .ok x => x.2.1
  | .error _ => 0

/-- Stop reason of a loop result. -/
def runReason (r : Except Unit (List JobData × Nat × StopReason)) : StopReason :=
  match r with
  | .ok x => x.2.2
  | .error _ => .criticalError

/-- The environment injects no exception at any page boundary. -/
def faultFree (env : ScrapeEnv) : Prop :=
  ∀ p, env.fetch p ≠ .interrupt ∧ env.fetch p ≠ .exc

/-- The loop ended on one of the claim's four stop conditions. -/
def normalStop (r : StopReason) : Prop :=
  r = .pageCap ∨ r = .consecutiveEmpty ∨ r = .noMorePages ∨
    r = .nextPageFailed ∨ r = .safetyLimit

/-- A positive explicit page cap is respected by a page count. -/
def capBoundOk (max_pages : Option Nat) (pages : Nat) : Prop :=
  match max_pages with
  | some m => 0 < m → pages ≤ m
  | none => True

lemma capReached_false_le {m p : Nat} (h : capReached (some m) p = false)
    (hm : 0 < m) : p ≤ m := by
  by_contra hgt
  have : capReached (some m) p = true := by
    simp only [capReached, Bool.and_eq_true, decide_eq_true_eq]
    exact ⟨hm, by omega⟩
  rw [h] at this
  cases this

lemma scrapeLoop_inv (env : ScrapeEnv) (mp : Option Nat) (hff : faultFree env) :
    ∀ (fuel page cf : Nat) (acc : List JobData),
      acc = yieldsUpTo env page → capBoundOk mp page →
      ∃ acc2 pages r, scrapeLoop env mp fuel page cf acc = .ok (acc2, pages, r) ∧
        page ≤ pages ∧ pages ≤ page + fuel ∧
        acc2 = yieldsUpTo env pages ∧ normalStop r ∧
        capBoundOk mp pages := by
  intro fuel
  induction fuel with
  | zero =>
    intro page cf acc hacc hcap
    exact ⟨acc, page, .safetyLimit, rfl, Nat.le_refl _, by omega, hacc,
      Or.inr (Or.inr (Or.inr (Or.inr rfl))), hcap⟩
  | succ fuel ih =>
    intro page cf acc hacc hcap
    by_cases hcapr : capReached mp (page + 1) = true
    · exact ⟨acc, page, .pageCap, by simp [scrapeLoop, hcapr], Nat.le_refl _,
        by omega, hacc, Or.inl rfl, hcap⟩
    · have hcaprf : capReached mp (page + 1) = false := by
        cases h : capReached mp (page + 1)
        · rfl
        · exact absurd h hcapr
      obtain ⟨jobs, hjobs⟩ : ∃ jobs, env.fetch (page + 1) = .ok jobs := by
        have h := hff (page + 1)
        cases hf : env.fetch (page + 1) with
        | ok j => exact ⟨j, rfl⟩
        | exc => exact absurd hf h.2
        | interrupt => exact absurd hf h.1
      have hcap1 : capBoundOk mp (page + 1) := by
        cases mp with
        | none => trivial
        | some m => exact fun hm => capReached_false_le hcaprf hm
      cases hje : jobs.isEmpty with
      | true =>
        have hnil : jobs = [] := List.isEmpty_iff.mp hje
        have hacc1 : acc = yieldsUpTo env (page + 1) := by
          rw [show yieldsUpTo env (page + 1) =
              yieldsUpTo env page ++ yieldOf (env.fetch (page + 1)) from rfl,
            hjobs, hnil]
          simp [yieldOf, hacc]
        by_cases h3 : 3 ≤ cf + 1
        · refine ⟨acc, page + 1, .consecutiveEmpty, ?_, by omega, by omega,
            hacc1, Or.inr (Or.inl rfl), hcap1⟩
          simp [scrapeLoop, hcaprf, hjobs, hje, h3]
        · cases hhm : env.hasMore (page + 1) with
          | false =>
            refine ⟨acc, page + 1, .noMorePages, ?_, by omega, by omega,
              hacc1, Or.inr (Or.inr (Or.inl rfl)), hcap1⟩
            simp [scrapeLoop, hcaprf, hjobs, hje, h3, hhm]
          | true =>
            cases hno : env.nextOk (page + 1) with
            | false =>
              refine ⟨acc, page + 1, .nextPageFailed, ?_, by omega, by omega,
                hacc1, Or.inr (Or.inr (Or.inr (Or.inl rfl))), hcap1⟩
              simp [scrapeLoop, hcaprf, hjobs, hje, h3, hhm, hno]
            | true =>
              by_cases h100 : 100 < page + 1
              · refine ⟨acc, page + 1, .safetyLimit, ?_, by omega, by omega,
                  hacc1, Or.inr (Or.inr (Or.inr (Or.inr rfl))), hcap1⟩
                simp [scrapeLoop, hcaprf, hjobs, hje, h3, hhm, hno, h100]
              · obtain ⟨acc2, pages, r, hres, hp1, hp2, hr3, hr4, hr5⟩ :=
                  ih (page + 1) (cf + 1) acc hacc1 hcap1
                refine ⟨acc2, pages, r, ?_, by omega, by omega, hr3, hr4, hr5⟩
                rw [← hres]
                simp [scrapeLoop, hcaprf, hjobs, hje, h3, hhm, hno, h100]
      | false =>
        have hacc1 : acc ++ jobs = yieldsUpTo env (page + 1) := by
          rw [show yieldsUpTo env (page + 1) =
              yieldsUpTo env page ++ yieldOf (env.fetch (page + 1)) from rfl,
            hjobs, hacc]
          rfl
        cases hhm : env.hasMore (page + 1) with
        | false =>
          refine ⟨acc ++ jobs, page + 1, .noMorePages, ?_, by omega, by omega,
            hacc1, Or.inr (Or.inr (Or.inl rfl)), hcap1⟩
          simp [scrapeLoop, hcaprf, hjobs, hje, hhm]
        | true =>
          cases hno : env.nextOk (page + 1) with
          | false =>
            refine ⟨acc ++ jobs, page + 1, .nextPageFailed, ?_, by omega, by omega,
              hacc1, Or.inr (Or.inr (Or.inr (Or.inl rfl))), hcap1⟩
            simp [scrapeLoop, hcaprf, hjobs, hje, hhm, hno]
          | true =>
            by_cases h100 : 100 < page + 1
            · refine ⟨acc ++ jobs, page + 1, .safetyLimit, ?_, by omega, by omega,
                hacc1, Or.inr (Or.inr (Or.inr (Or.inr rfl))), hcap1⟩
              simp [scrapeLoop, hcaprf, hjobs, hje, hhm, hno, h100]
            · obtain ⟨acc2, pages, r, hres, hp1, hp2, hr3, hr4, hr5⟩ :=
                ih (page + 1) 0 (acc ++ jobs) hacc1 hcap1
              refine ⟨acc2, pages, r, ?_, by omega, by omega, hr3, hr4, hr5⟩
              rw [← hres]
              simp [scrapeLoop, hcaprf, hjobs, hje, hhm, hno, h100]

/-! ### Claims C4, C5, C7 -/

/-- A snapshot the gate accepts on its first poll. -/
def gateOkSnapshot : Snapshot :=
  ⟨"job company", "jobs"⟩

/-- A snapshot showing a challenge marker on every poll. -/
def gateStuckSnapshot : Snapshot :=
  ⟨"cloudflare ray id", "x"⟩

/-- A titled record yielded by every page of the endless environment. -/
def sampleJob : JobData :=
  { emptyJobData with title := some "Data Engineer" }

/-- An environment whose pages always yield one job and always paginate. -/
def envEndless : ScrapeEnv :=
  ⟨fun _ => gateOkSnapshot, fun _ => .ok [sampleJob], fun _ => true, fun _ => true⟩

set_option maxRecDepth 40000 in
/-- Counterexample to C4: with no explicit cap and endless pagination the
safety check `page_num > 100` only fires after the page was processed, so
the run processes 101 pages and returns 101 records — more than the 100
pages the claim allows. -/
theorem C4_counterexample :
    scrapeLoop envEndless none 101 0 0 [] =
      Except.ok (List.replicate 101 sampleJob, 101, StopReason.safetyLimit) := by
  rfl

/-- C4 (amended): in a fault-free run the loop stops only on the explicit
page cap, the 3-consecutive-zero-yield rule, exhausted pagination (no next
control or failed advancement), or the safety ceiling — which admits 101
processed pages, not 100, because the `page_num > 100` check runs after
the page is processed; on every stop the accumulated records (exactly the
concatenation of the processed pages' yields) are returned as a normal,
non-error result, and a positive explicit cap `m` bounds the pages by
`m`. -/
theorem C4_stop_conditions_amended (env : ScrapeEnv) (max_pages : Option Nat)
    (hff : faultFree env) :
    runIsOk (scrapeLoop env max_pages 101 0 0 []) = true ∧
      runPages (scrapeLoop env max_pages 101 0 0 []) ≤ 101 ∧
      runRecords (scrapeLoop env max_pages 101 0 0 []) =
        yieldsUpTo env (runPages (scrapeLoop env max_pages 101 0 0 [])) ∧
      normalStop (runReason (scrapeLoop env max_pages 101 0 0 [])) ∧
      capBoundOk max_pages (runPages (scrapeLoop env max_pages 101 0 0 [])) := by
  obtain ⟨acc2, pages, r, hres, h1, h2, h3, h4, h5⟩ :=
    scrapeLoop_inv env max_pages hff 101 0 0 [] rfl
      (by cases max_pages with
          | none => trivial
          | some m => exact fun _ => Nat.zero_le m)
  rw [hres]
  exact ⟨rfl, by simpa using h2, h3, h4, h5⟩

/-- An environment with a single empty page and no further pagination. -/
def envOnePage : ScrapeEnv :=
  ⟨fun _ => gateOkSnapshot, fun _ => .ok [], fun _ => false, fun _ => false⟩

/-- Witness for C4 (amended) on a one-page fault-free environment. -/
theorem C4_stop_conditions_amended_witness :
    runIsOk (scrapeLoop envOnePage none 101 0 0 []) = true ∧
      runPages (scrapeLoop envOnePage none 101 0 0 []) ≤ 101 ∧
      runRecords (scrapeLoop envOnePage none 101 0 0 []) =
        yieldsUpTo envOnePage (runPages (scrapeLoop envOnePage none 101 0 0 [])) ∧
      normalStop (runReason (scrapeLoop envOnePage none 101 0 0 [])) ∧
      capBoundOk none (runPages (scrapeLoop envOnePage none 101 0 0 [])) :=
  C4_stop_conditions_amended envOnePage none
    (by intro p; exact ⟨by simp [envOnePage], by simp [envOnePage]⟩)

/-- The run returned a (possibly empty) record list rather than a
propagating interrupt. -/
def scrapeIsOk (r : Except Unit (List JobData)) : Bool :=
  match r with
  | .ok _ => true
  | .error _ => false

/-- An environment whose challenge gate never clears (every poll shows a
challenge marker) although its pages would yield jobs. -/
def envGateStuck : ScrapeEnv :=
  ⟨fun _ => gateStuckSnapshot, fun _ => .ok [sampleJob], fun _ => true, fun _ => true⟩

/-- An environment whose gate clears at once but whose single page yields
no records. -/
def envEmptyRun : ScrapeEnv :=
  ⟨fun _ => gateOkSnapshot, fun _ => .ok [], fun _ => false, fun _ => true⟩

set_option maxRecDepth 40000 in
/-- Counterexample to C5: a run whose challenge gate times out returns
`[]`, the very same value a successfully gated run with zero records
returns — the gate timeout is not surfaced as a failure distinct from an
empty result. -/
theorem C5_counterexample :
    scrape_all_pages envGateStuck none = Except.ok [] ∧
      scrape_all_pages envEmptyRun none = Except.ok [] ∧
      navigate_to_jobs envGateStuck = false ∧
      navigate_to_jobs envEmptyRun = true := by
  refine ⟨?_, ?_, ?_, ?_⟩ <;> rfl

/-- C5 (amended): every run terminates with a record list; when the
challenge gate times out the orchestrator returns the empty list at once
(no page extraction affects the outcome — the result is `[]` for every
fetch environment), the timeout being reported only on the console, not
distinguishably in the returned value; when the gate clears, a fault-free
run returns an ordinary record list. -/
theorem C5_gate_timeout_amended (env : ScrapeEnv) (max_pages : Option Nat) :
    (navigate_to_jobs env = false → scrape_all_pages env max_pages = Except.ok []) ∧
      (navigate_to_jobs env = true → faultFree env →
        scrapeIsOk (scrape_all_pages env max_pages) = true) := by
  constructor
  · intro h
    simp [scrape_all_pages, h]
  · intro h hff
    obtain ⟨acc2, pages, r, hres, -, -, -, -, -⟩ :=
      scrapeLoop_inv env max_pages hff 101 0 0 [] rfl
        (by cases max_pages with
            | none => trivial
            | some m => exact fun _ => Nat.zero_le m)
    simp [scrape_all_pages, h, hres, scrapeIsOk, Except.map]

set_option maxRecDepth 40000 in
/-- Witness for C5 (amended): the stuck-gate run returns the empty list;
the cleared-gate empty run returns an ordinary list. -/
theorem C5_gate_timeout_amended_witness :
    scrape_all_pages envGateStuck none = Except.ok [] ∧
      scrapeIsOk (scrape_all_pages envEmptyRun none) = true :=
  ⟨(C5_gate_timeout_amended envGateStuck none).1 (by rfl),
   (C5_gate_timeout_amended envEmptyRun none).2 (by rfl)
     (by intro p; exact ⟨by simp [envEmptyRun], by simp [envEmptyRun]⟩)⟩

/-- An environment interrupted at the second page boundary, after page 1
yielded a record. -/
def envInterrupted : ScrapeEnv :=
  ⟨fun _ => gateOkSnapshot,
   fun p => if p ≤ 1 then .ok [sampleJob] else .interrupt,
   fun _ => true, fun _ => true⟩

set_option maxRecDepth 40000 in
/-- Counterexample to C7: a cooperative interrupt at a page boundary makes
the whole run surface an error — the records accumulated so far (page 1
yielded `sampleJob`) are not returned by the orchestrator. -/
theorem C7_counterexample :
    scrape_all_pages envInterrupted none = Except.error () ∧
      envInterrupted.fetch 1 = PageFetch.ok [sampleJob] := by
  refine ⟨?_, ?_⟩ <;> rfl

/-- C7 (amended): `KeyboardInterrupt` is not an `Exception` in Python, so
the orchestrator's `except Exception` handler does not catch it: an
interrupt at a page boundary propagates out of the loop and the
accumulated records are not returned (`main` catches and discards them);
only a generic exception at the page boundary makes the orchestrator
return the records accumulated so far. -/
theorem C7_interrupt_amended (env : ScrapeEnv) (max_pages : Option Nat)
    (fuel page cf : Nat) (acc : List JobData)
    (hcap : capReached max_pages (page + 1) = false) :
    (env.fetch (page + 1) = .interrupt →
        scrapeLoop env max_pages (fuel + 1) page cf acc = Except.error ()) ∧
      (env.fetch (page + 1) = .exc →
        scrapeLoop env max_pages (fuel + 1) page cf acc =
          Except.ok (acc, page + 1, StopReason.criticalError)) := by
  constructor <;> intro h <;> simp [scrapeLoop, hcap, h]

/-- An environment interrupted at the very first page boundary. -/
def envAlwaysInterrupt : ScrapeEnv :=
  ⟨fun _ => gateOkSnapshot, fun _ => .interrupt, fun _ => true, fun _ => true⟩

/-- An environment raising a generic exception at the first page boundary. -/
def envAlwaysExc : ScrapeEnv :=
  ⟨fun _ => gateOkSnapshot, fun _ => .exc, fun _ => true, fun _ => true⟩

/-- Witness for C7 (amended): the interrupt propagates as an error; the
generic exception returns the (here empty) accumulated records. -/
theorem C7_interrupt_amended_witness :
    scrapeLoop envAlwaysInterrupt none 6 0 0 [] = Except.error () ∧
      scrapeLoop envAlwaysExc none 6 0 0 [] =
        Except.ok ([], 1, StopReason.criticalError) :=
  ⟨(C7_interrupt_amended envAlwaysInterrupt none 5 0 0 [] rfl).1 rfl,
   (C7_interrupt_amended envAlwaysExc none 5 0 0 [] rfl).2 rfl⟩

/-! ### Claim C10 -/

/-- The constructor produced a configuration (no `ValueError`). -/
def isOkE (r : Except String ScraperConfig) : Bool :=
  match r with
  | .ok _ => true
  | .error _ => false

/-- Base URL of a constructed configuration. -/
def baseOf (r : Except String ScraperConfig) : String :=
  match r with
  | .ok c => c.base_url
  | .error _ => ""

/-- C10: the constructor succeeds exactly on the eight supported country
codes — anything else yields the `ValueError` before any further state is
built — and for a supported code the base URL is `https://` followed by
that country's configured domain. -/
theorem C10_init_countries (country : String) (save_session : Bool) :
    (isOkE (scraperInit country save_session) = true ↔
        country ∈ ["AU", "IN", "US", "UK", "CA", "SG", "DE", "FR"]) ∧
      (∀ domain name, lookupCountry country = some (domain, name) →
        baseOf (scraperInit country save_session) = "https://" ++ domain) := by
  constructor
  · have h1 : isOkE (scraperInit country save_session) = (lookupCountry country).isSome := by
      cases hl : lookupCountry country <;> simp [scraperInit, hl, isOkE]
    rw [h1]
    have h2 : (lookupCountry country).isSome = (COUNTRIES.find? (fun t => t.1 == country)).isSome := by
      simp [lookupCountry]
    rw [h2]
    rw [List.find?_isSome]
    constructor
    · rintro ⟨x, hx, he⟩
      have hxc : x.1 = country := by simpa using he
      rw [← hxc]
      fin_cases hx <;> simp
    · intro h
      fin_cases h
      · exact ⟨("AU", "au.indeed.com", "Australia"), by simp [COUNTRIES], by simp⟩
      · exact ⟨("IN", "in.indeed.com", "India"), by simp [COUNTRIES], by simp⟩
      · exact ⟨("US", "indeed.com", "United States"), by simp [COUNTRIES], by simp⟩
      · exact ⟨("UK", "uk.indeed.com", "United Kingdom"), by simp [COUNTRIES], by simp⟩
      · exact ⟨("CA", "ca.indeed.com", "Canada"), by simp [COUNTRIES], by simp⟩
      · exact ⟨("SG", "sg.indeed.com", "Singapore"), by simp [COUNTRIES], by simp⟩
      · exact ⟨("DE", "de.indeed.com", "Germany"), by simp [COUNTRIES], by simp⟩
      · exact ⟨("FR", "fr.indeed.com", "France"), by simp [COUNTRIES], by simp⟩
  · intro domain name h
    simp [scraperInit, h, baseOf]

/-- Witness for C10: the supported code `AU` builds the configured base
URL. -/
theorem C10_init_countries_witness :
    baseOf (scraperInit "AU" true) = "https://au.indeed.com" :=
  (C10_init_countries "AU" true).2 "au.indeed.com" "Australia" rfl

end IndeedScraper
